import Mathlib

/-!
Shallow embedding of the Spotify-Playlist-Analyzer ETL pipeline
(src/scripts/extract.py, src/scripts/transform.py, src/scripts/load.py)
and proofs about the spec's claims concerning it.
-/

namespace Spotify

/-- A Python value as it can appear in one of the three list-like columns
(artist_names, track_genres, artist_ids): a list of strings, a plain string,
an integer, or a null/NaN cell. -/
inductive PyVal where
  | listv : List String → PyVal
  | strv  : String → PyVal
  | intv  : Int → PyVal
  | nullv : PyVal
deriving DecidableEq

/-- Drop leading spaces from a character list. -/
def skipSpaces : List Char → List Char
  | c :: cs => if c = ' ' then skipSpaces cs else c :: cs
  | [] => []

/-- Resolve a backslash escape inside a Python string literal.  Only the
escapes that can occur in the serialized list fields are modelled. -/
def unescapeChar (e : Char) : Char :=
  if e = 'n' then '\n' else if e = 't' then '\t' else e

/-- Parse the body of a Python string literal up to the closing quote `q`,
returning the content and the remaining input. -/
def parseStrBody (q : Char) : List Char → Option (List Char × List Char)
  | [] => none
  | c :: cs =>
    if c = q then some ([], cs)
    else if c = '\\' then
      match cs with
      | [] => none
      | e :: rest =>
        match parseStrBody q rest with
        | some (s, r) => some (unescapeChar e :: s, r)
        | none => none
    else
      match parseStrBody q cs with
      | some (s, r) => some (c :: s, r)
      | none => none

/-- Parse a complete Python string literal (single or double quoted). -/
def parseStrLit : List Char → Option (String × List Char)
  | c :: cs =>
    if c = '\'' ∨ c = '"' then
      match parseStrBody c cs with
      | some (s, r) => some (String.mk s, r)
      | none => none
    else none
  | [] => none

/-- Parse a nonempty run of decimal digits. -/
def parseDigits (l : List Char) : Option (Nat × List Char) :=
  let ds := l.takeWhile Char.isDigit
  if ds = [] then none
  else some (ds.foldl (fun acc c => acc * 10 + (c.toNat - 48)) 0, l.dropWhile Char.isDigit)

/-- Parse a Python integer literal (optional leading minus). -/
def parseIntLit : List Char → Option (Int × List Char)
  | '-' :: rest =>
    match parseDigits rest with
    | some (n, r) => some (-(n : Int), r)
    | none => none
  | l =>
    match parseDigits l with
    | some (n, r) => some ((n : Int), r)
    | none => none

/-- Parse the items of a Python list literal of string literals, after the
opening bracket; fuel bounds the recursion by the input length. -/
def parseListRest : Nat → List Char → Option (List String × List Char)
  | 0, _ => none
  | fuel + 1, l =>
    match skipSpaces l with
    | ']' :: r => some ([], r)
    | l2 =>
      match parseStrLit l2 with
      | none => none
      | some (s, r) =>
        match skipSpaces r with
        | ']' :: r2 => some ([s], r2)
        | ',' :: r2 =>
          match parseListRest fuel r2 with
          | some (xs, r3) => some (s :: xs, r3)
          | none => none
        | _ => none

/-- The model of Python's ast.literal_eval on the literal shapes the three
list-like columns can carry: a list of string literals, a single string
literal, or an integer literal.  Anything outside that grammar (as well as
anything ast.literal_eval itself rejects, such as a bare word) parses to
none, which the callers turn into the empty-list default. -/
def parsePyLit (s : String) : Option PyVal :=
  match skipSpaces s.toList with
  | '[' :: rest =>
    match parseListRest (rest.length + 1) rest with
    | some (xs, r) => if skipSpaces r = [] then some (PyVal.listv xs) else none
    | none => none
  | l =>
    match parseStrLit l with
    | some (s2, r) => if skipSpaces r = [] then some (PyVal.strv s2) else none
    | none =>
      match parseIntLit l with
      | some (n, r) => if skipSpaces r = [] then some (PyVal.intv n) else none
      | none => none

/-- The safe_parse helper, defined identically in src/scripts/transform.py (lines 22-28)
and src/scripts/load.py (lines 35-41):
if isinstance(x, list): return x;
try: return ast.literal_eval(x) if pd.notna(x) else [];
except Exception: return [].
A null/NaN cell fails pd.notna and yields []; a non-string non-list value
makes ast.literal_eval raise, which the except clause turns into []; a string
is handed to ast.literal_eval and a parse failure likewise becomes [].
A successful parse is returned as-is, whatever Python value it produced. -/
def safe_parse (x : PyVal) : PyVal :=
  match x with
  | PyVal.listv l => PyVal.listv l
  | PyVal.nullv => PyVal.listv []
  | PyVal.intv _ => PyVal.listv []
  | PyVal.strv s => (parsePyLit s).getD (PyVal.listv [])

/-- JSON string escaping for the characters that json.dumps always escapes
in the values at hand. -/
def jsonEscapeChar (c : Char) : String :=
  if c = '"' then "\\\"" else if c = '\\' then "\\\\" else String.mk [c]

/-- JSON encoding of a string, as json.dumps produces it. -/
def jsonStr (s : String) : String :=
  "\"" ++ String.join (s.toList.map jsonEscapeChar) ++ "\""

/-- Model of json.dumps on the values safe_parse can return: a list of strings becomes
JSON array text (with the default ", " separator), a string becomes a JSON
string, an integer its decimal text, None the JSON null. -/
def jsonDumps : PyVal → String
  | PyVal.listv l => "[" ++ String.intercalate ", " (l.map jsonStr) ++ "]"
  | PyVal.strv s => jsonStr s
  | PyVal.intv n => toString n
  | PyVal.nullv => "null"

/-! ### Normalizer: src/scripts/transform.py -/

/-- A cell of the album_release_date column: raw text as read from the
source/CSV, a parsed datetime (as pandas stores after to_datetime), or a
null/NaT cell. -/
inductive DateCell where
  | text : String → DateCell
  | dt : Nat → Nat → Nat → DateCell
  | null : DateCell
deriving DecidableEq

/-- Parse a date string of the shapes the source emits (YYYY, YYYY-MM,
YYYY-MM-DD); anything else is coerced to NaT, as
pd.to_datetime(errors=coerce) does. -/
def parseDateString (s : String) : DateCell :=
  match (s.splitOn "-").map String.toNat? with
  | [some y] => if s.length = 4 then DateCell.dt y 1 1 else DateCell.null
  | [some y, some m] => if 1 ≤ m ∧ m ≤ 12 then DateCell.dt y m 1 else DateCell.null
  | [some y, some m, some d] =>
    if 1 ≤ m ∧ m ≤ 12 ∧ 1 ≤ d ∧ d ≤ 31 then DateCell.dt y m d else DateCell.null
  | _ => DateCell.null

/-- Model of pd.to_datetime(col, errors=coerce), cell-wise: text is parsed (invalid
text coerces to NaT), an already-parsed datetime and NaT pass through. -/
def to_datetime : DateCell → DateCell
  | DateCell.text s => parseDateString s
  | DateCell.dt y m d => DateCell.dt y m d
  | DateCell.null => DateCell.null

/-- The .dt.year accessor: the year of a datetime cell, NaN for NaT/text. -/
def dateYear : DateCell → Option Nat
  | DateCell.dt y _ _ => some y
  | _ => none

/-- One row of the playlist DataFrame as transform_playlist_df sees it.
Derived columns (track_duration_sec, release_year) are Option-valued so the
same shape covers the frame both before the transform (absent = none) and
after it. -/
structure Row where
  track_id : PyVal
  track_name : PyVal
  track_duration_ms : Option Int
  track_duration_sec : Option Rat
  track_popularity : Option Int
  track_genres : PyVal
  album_id : PyVal
  album_name : Option String
  album_release_date : DateCell
  album_label : PyVal
  release_year : Option Nat
  artist_ids : PyVal
  artist_names : PyVal
deriving DecidableEq

/-- One row of transform_playlist_df (src/scripts/transform.py lines 8-34):
parse the release date (coercing failures to NaT) and derive release_year;
derive track_duration_sec = track_duration_ms / 1000; fill null popularity
with 0 and cast to int; fill null album_name with "Unknown"; run safe_parse
over the three list-like columns.  All other columns pass through. -/
def transformRow (r : Row) : Row :=
  let d := to_datetime r.album_release_date
  { r with
    album_release_date := d
    release_year := dateYear d
    track_duration_sec := r.track_duration_ms.map (fun n => (n : Rat) / 1000)
    track_popularity := some (r.track_popularity.getD 0)
    album_name := some (r.album_name.getD "Unknown")
    artist_names := safe_parse r.artist_names
    track_genres := safe_parse r.track_genres
    artist_ids := safe_parse r.artist_ids }

/-- The transform_playlist_df function on a whole frame: every column operation in the
source is elementwise, so the frame transform is the row transform mapped. -/
def transform_playlist_df (df : List Row) : List Row := df.map transformRow

/-- Whether a PyVal is an actual Python list. -/
def PyVal.isList : PyVal → Bool
  | PyVal.listv _ => true
  | _ => false

/-! ### Extractor: src/scripts/extract.py -/

structure Artist where
  id : String
  name : String
deriving DecidableEq

structure Album where
  id : String
  name : String
  release_date : Option String
  label : Option String
deriving DecidableEq

/-- The track payload of a playlist item, with the fields
extract_playlist_tracks reads. -/
structure Track where
  id : String
  name : String
  duration_ms : Int
  popularity : Option Int
  album : Album
  artists : List Artist
deriving DecidableEq

/-- One element of a playlist_items page; the track payload is null for
deleted or regionally unavailable tracks. -/
structure Item where
  track : Option Track
deriving DecidableEq

/-- One page returned by sp.playlist_items / sp.next: its items and whether
the continuation cursor (the next field) is non-null. -/
structure Page where
  items : List Item
  next : Bool
deriving DecidableEq

structure PlaylistMeta where
  name : String
  owner : String
deriving DecidableEq

/-- The record appended to all_tracks for each retained item
(src/scripts/extract.py lines 72-87). -/
structure RawTrack where
  track_id : String
  track_name : String
  track_duration_ms : Int
  track_popularity : Option Int
  track_genres : List String
  album_id : String
  album_name : String
  album_release_date : Option String
  album_label : Option String
  artist_ids : List String
  artist_names : List String
deriving DecidableEq

/-- Insert an element into a Python-set model unless already present. -/
def insertUniq (acc : List String) (x : String) : List String :=
  if x ∈ acc then acc else acc ++ [x]

/-- Model of list(genre_set) for a set built by successive update calls: the elements
in first-encounter order, deduplicated.  (CPython's set iteration order is
unspecified; only the membership of the result is meaningful.) -/
def pySetList (l : List String) : List String := l.foldl insertUniq []

/-- The per-track genre resolution loop (src/scripts/extract.py lines 62-70):
sp.artist is modelled as lookup, returning the artist's genres list on
success and none when the call raises; a failed lookup is caught, logged and
contributes nothing to the genre set. -/
def genreSet (lookup : String → Option (List String)) (artistIds : List String) :
    List String :=
  pySetList ((artistIds.filterMap lookup).flatten)

/-- Build the RawTrack record for one retained track. -/
def mkRawTrack (lookup : String → Option (List String)) (t : Track) : RawTrack :=
  let ids := t.artists.map Artist.id
  { track_id := t.id
    track_name := t.name
    track_duration_ms := t.duration_ms
    track_popularity := t.popularity
    track_genres := genreSet lookup ids
    album_id := t.album.id
    album_name := t.album.name
    album_release_date := t.album.release_date
    album_label := t.album.label
    artist_ids := ids
    artist_names := t.artists.map Artist.name }

/-- The per-item loop body over one page (src/scripts/extract.py lines
52-87): items whose track payload is null are skipped, every retained item
yields one RawTrack. -/
def processItems (lookup : String → Option (List String)) (items : List Item) :
    List RawTrack :=
  items.filterMap (fun it => it.track.map (mkRawTrack lookup))

/-- The pagination loop (src/scripts/extract.py lines 51-91) over the first
page and the pages sp.next would deliver in order: process the current page;
if its next cursor is non-null fetch the following page, else break.
Returns the accumulated records and the number of sp.next calls.  (A page
whose next cursor is non-null but for which the mock supplies no successor
cannot arise under the claims' premise that only the last page carries a
null cursor.) -/
def crawlPages (lookup : String → Option (List String)) :
    Page → List Page → List RawTrack × Nat
  | p, rest =>
    let recs := processItems lookup p.items
    if p.next then
      match rest with
      | [] => (recs, 0)
      | q :: qs =>
        let (rs, n) := crawlPages lookup q qs
        (recs ++ rs, n + 1)
    else (recs, 0)

/-- The mocked Spotify client: playlist metadata, the first playlist_items
page, the successor pages sp.next delivers in order, and the sp.artist
genre lookup (none models a raised exception). -/
structure SpClient where
  meta : PlaylistMeta
  firstPage : Page
  restPages : List Page
  artist : String → Option (List String)

/-- The extract_playlist_tracks function (src/scripts/extract.py lines 42-93): the
accumulated records of all crawled pages plus the playlist metadata. -/
def extract_playlist_tracks (sp : SpClient) : List RawTrack × PlaylistMeta :=
  ((crawlPages sp.artist sp.firstPage sp.restPages).1, sp.meta)

/-- How many times the crawl invokes sp.next. -/
def extractNextCalls (sp : SpClient) : Nat :=
  (crawlPages sp.artist sp.firstPage sp.restPages).2

/-- The claims' pagination premise: every page except the last carries a
non-null next cursor, the last a null one. -/
def cursorChain : Page → List Page → Prop
  | p, [] => p.next = false
  | p, q :: qs => p.next = true ∧ cursorChain q qs

/-! Timing model for the genre-lookup loop: the observable events are the
sp.artist calls and the time.sleep(0.1) delays (in milliseconds). -/

inductive Ev where
  | call : String → Ev
  | sleep : Nat → Ev
deriving DecidableEq

/-- The event trace of the genre loop (src/scripts/extract.py lines 63-70)
over a sequence of artist ids: each id is looked up; only when the call
succeeds does the loop reach time.sleep(0.1) - the sleep sits inside the
try block after the sp.artist call, so a raised lookup skips it. -/
def genreLoopTrace (lookup : String → Option (List String)) :
    List String → List Ev
  | [] => []
  | aid :: rest =>
    Ev.call aid ::
      (match lookup aid with
       | some _ => Ev.sleep 100 :: genreLoopTrace lookup rest
       | none => genreLoopTrace lookup rest)

/-- The artist ids looked up over a whole extraction, in call order: the
loops nest as pages / retained items / artists, which flattens to this
concatenation. -/
def crawlArtistSeq : Page → List Page → List String
  | p, rest =>
    let ids := ((p.items.filterMap Item.track).map (fun t => t.artists.map Artist.id)).flatten
    if p.next then
      match rest with
      | [] => ids
      | q :: qs => ids ++ crawlArtistSeq q qs
    else ids

/-- All sp.artist calls and sleeps of one extract_playlist_tracks run. -/
def extractCallTrace (sp : SpClient) : List Ev :=
  genreLoopTrace sp.artist (crawlArtistSeq sp.firstPage sp.restPages)

/-- Check that every pair of consecutive call events is separated by at
least 100ms of sleep: scan the trace accumulating the sleep time since the
last call. -/
def sepAux : Bool → Nat → List Ev → Bool
  | _, _, [] => true
  | sawCall, acc, Ev.call _ :: rest =>
    (!sawCall || decide (100 ≤ acc)) && sepAux true 0 rest
  | sawCall, acc, Ev.sleep d :: rest => sepAux sawCall (acc + d) rest

/-- Whether all consecutive lookup calls in a trace are ≥100ms apart. -/
def callsSeparated (tr : List Ev) : Bool := sepAux false 0 tr

/-- Whether an event is a lookup call. -/
def Ev.isCall : Ev → Bool
  | Ev.call _ => true
  | Ev.sleep _ => false

/-- The sleep time an event contributes, in milliseconds. -/
def Ev.sleepMs : Ev → Nat
  | Ev.call _ => 0
  | Ev.sleep d => d

/-- The total sleep time of a trace segment, in milliseconds. -/
def sleepTime (l : List Ev) : Nat := (l.map Ev.sleepMs).sum

/-! ### Loader: src/scripts/load.py -/

/-- One row of the frame handed to load_to_postgreSQL, i.e. the columns
named in the upsert statement.  The caller has already stamped playlist_id
on every row; the three list-like columns still carry arbitrary Python
values, which lines 52-54 re-coerce and JSON-encode. -/
structure LoadRow where
  playlist_id : String
  track_id : String
  track_name : String
  track_duration_ms : Int
  track_popularity : Int
  track_genres : PyVal
  album_id : String
  album_name : String
  album_release_date : Option String
  album_label : Option String
  artist_ids : PyVal
  artist_names : PyVal
deriving DecidableEq

/-- Lines 52-54 of src/scripts/load.py: each of artist_names, track_genres,
artist_ids is run through safe_parse and then json.dumps, leaving the
column as text. -/
def stageRow (r : LoadRow) : LoadRow :=
  { r with
    artist_names := PyVal.strv (jsonDumps (safe_parse r.artist_names))
    track_genres := PyVal.strv (jsonDumps (safe_parse r.track_genres))
    artist_ids := PyVal.strv (jsonDumps (safe_parse r.artist_ids)) }

/-- The sink state: the permanent playlist_tracks table and the staging
tables currently present, by name. -/
structure DBState where
  perm : List LoadRow
  temps : List (String × List LoadRow)
deriving DecidableEq

/-- The composite key the permanent table's unique constraint covers. -/
def rowKey (r : LoadRow) : String × String := (r.playlist_id, r.track_id)

def keyMatches (k : String × String) (p : LoadRow) : Bool := decide (rowKey p = k)

/-- INSERT ... ON CONFLICT (playlist_id, track_id) DO UPDATE for one staged
row: if a permanent row with the same key exists, every mutable column is
overwritten with the incoming value (which, the key being equal, replaces
the row wholesale); otherwise the row is inserted. -/
def upsertOne (perm : List LoadRow) (r : LoadRow) : List LoadRow :=
  if perm.any (keyMatches (rowKey r))
  then perm.map (fun p => if keyMatches (rowKey r) p then r else p)
  else perm ++ [r]

/-- The set-based upsert of a whole staged batch.  (Postgres rejects a batch
that hits the same key twice in one statement; the claims only exercise
batches with distinct keys.) -/
def upsertAll (perm : List LoadRow) (rows : List LoadRow) : List LoadRow :=
  rows.foldl upsertOne perm

/-- The sink-write failure injected into a load invocation: none, a failure
of the df.to_sql staging write, or a failure inside the upsert statement. -/
inductive Fault where
  | ok : Fault
  | atStaging : Fault
  | atUpsert : Fault
deriving DecidableEq

/-- What the load invocation does for its caller.  A Python call either
returns or raises, so the outcome type has a raised case; load_to_postgreSQL
never produces it, because its try/except catches every exception and only
prints it, returning normally. -/
inductive LoadOutcome where
  | skippedEmpty : LoadOutcome
  | loaded : LoadOutcome
  | errorLogged : LoadOutcome
  | raised : LoadOutcome
deriving DecidableEq

/-- The load_to_postgreSQL function (src/scripts/load.py lines 46-98) against sink state
db, with staging-table name tempName (the code draws temp_..._hex from
os.urandom) and an injected fault:
- an empty frame is skipped (print and plain return);
- otherwise lines 52-54 coerce and JSON-encode the three list columns;
- step 1, df.to_sql, creates and fills the staging table in its own
  implicit transaction; if it raises, nothing was created and the except
  clause prints and returns;
- step 2 runs one engine.begin() transaction containing the upsert
  statement followed by DROP TABLE of the staging table.  If the upsert
  raises mid-batch the whole transaction rolls back: the permanent table
  keeps its pre-load contents, the DROP is never reached, and the staging
  table (committed by to_sql) remains; the except clause prints and
  returns.  On success the upsert commits and the DROP removes the staging
  table. -/
def load_to_postgreSQL (db : DBState) (df : List LoadRow) (tempName : String)
    (fault : Fault) : DBState × LoadOutcome :=
  if df.isEmpty then (db, LoadOutcome.skippedEmpty)
  else
    let staged := df.map stageRow
    match fault with
    | Fault.atStaging => (db, LoadOutcome.errorLogged)
    | Fault.atUpsert =>
      ({ perm := db.perm, temps := db.temps ++ [(tempName, staged)] },
       LoadOutcome.errorLogged)
    | Fault.ok =>
      ({ perm := upsertAll db.perm staged,
         temps := (db.temps ++ [(tempName, staged)]).filter
           (fun t => t.1 != tempName) },
       LoadOutcome.loaded)

/-- The permanent table's unique constraint on (playlist_id, track_id). -/
def keysUnique (perm : List LoadRow) : Prop := (perm.map rowKey).Nodup

/-- Whether a string is JSON array text (begins with an opening bracket). -/
def isJsonArray (s : String) : Bool :=
  match s.toList with
  | '[' :: _ => true
  | _ => false

/-! ### Concrete fixtures used by witnesses and counterexamples -/

/-- A concrete canonical row (popularity 50). -/
def row50 : LoadRow :=
  { playlist_id := "p1", track_id := "t1", track_name := "Song"
    track_duration_ms := 200000, track_popularity := 50
    track_genres := PyVal.listv ["pop"]
    album_id := "al1", album_name := "Album"
    album_release_date := some "2023-01-01", album_label := none
    artist_ids := PyVal.listv ["a1"], artist_names := PyVal.listv ["Artist"] }

/-- The same row re-ingested with popularity 90. -/
def row90 : LoadRow := { row50 with track_popularity := 90 }

/-- A loader row whose track_genres cell is the string "123". -/
def rowNonList : LoadRow := { row50 with track_genres := PyVal.strv "123" }

/-- An empty sink. -/
def dbEmpty : DBState := { perm := [], temps := [] }

/-- A small valid track with one artist, used by the pagination witness. -/
def mkSimpleTrack (i : String) : Track :=
  { id := i, name := i, duration_ms := 1000, popularity := some 1
    album := { id := "al", name := "A", release_date := none, label := none }
    artists := [{ id := "ar", name := "Ar" }] }

/-- First page of the pagination scenario: three items, non-null cursor. -/
def pageOne : Page :=
  { items := [{ track := some (mkSimpleTrack "t1") },
              { track := some (mkSimpleTrack "t2") },
              { track := some (mkSimpleTrack "t3") }]
    next := true }

/-- Second page of the pagination scenario: one item, null cursor. -/
def pageTwo : Page := { items := [{ track := some (mkSimpleTrack "t4") }], next := false }

/-- The two-page mocked client of the pagination scenario. -/
def spTwoPages : SpClient :=
  { meta := { name := "P", owner := "O" }, firstPage := pageOne, restPages := [pageTwo]
    artist := fun _ => some ["pop"] }

/-- A track with two artists, the first of which will fail its lookup. -/
def trackTwoArtists : Track :=
  { id := "tr1", name := "Song", duration_ms := 200000, popularity := some 80
    album := { id := "al1", name := "Album", release_date := some "2023-01-01", label := none }
    artists := [{ id := "a1", name := "A1" }, { id := "a2", name := "A2" }] }

/-- A client whose artist lookup raises for a1 and succeeds for a2. -/
def spFailFirst : SpClient :=
  { meta := { name := "P", owner := "O" }
    firstPage := { items := [{ track := some trackTwoArtists }], next := false }
    restPages := []
    artist := fun a => if a = "a2" then some ["pop"] else none }

/-- A track with three artists, used for a mixed lookup run. -/
def trackThreeArtists : Track :=
  { id := "tr2", name := "Song2", duration_ms := 180000, popularity := some 70
    album := { id := "al1", name := "Album", release_date := some "2023-01-01", label := none }
    artists := [{ id := "a1", name := "A1" }, { id := "a2", name := "A2" },
                { id := "a3", name := "A3" }] }

/-- A client with a mixed run: the lookup of a1 raises, those of a2 and a3
succeed. -/
def spMixed : SpClient :=
  { meta := { name := "P", owner := "O" }
    firstPage := { items := [{ track := some trackThreeArtists }], next := false }
    restPages := []
    artist := fun a => if a = "a1" then none else some ["pop"] }

/-- A transform row whose list-like fields are genuine lists and whose date
is valid serialized text. -/
def rowListy : Row :=
  { track_id := PyVal.strv "t1", track_name := PyVal.strv "Song"
    track_duration_ms := some 200000, track_duration_sec := none
    track_popularity := some 80, track_genres := PyVal.listv ["pop", "rock"]
    album_id := PyVal.strv "al1", album_name := some "Album"
    album_release_date := DateCell.text "2023-01-15", album_label := PyVal.nullv
    release_year := none, artist_ids := PyVal.listv ["a1"]
    artist_names := PyVal.listv ["Artist"] }

/-- A transform row whose track_genres cell is the quoted literal "'123'",
as a CSV cell can hold; its duration cell is null so that every derived
field is finitely computable by the kernel. -/
def rowQuoted : Row :=
  { rowListy with track_genres := PyVal.strv "\"123\"", track_duration_ms := none
                  track_duration_sec := none }

/-! ### Helper lemmas -/

theorem processItems_eq (lookup : String → Option (List String)) (items : List Item) :
    processItems lookup items = (items.filterMap Item.track).map (mkRawTrack lookup) := by
  rw [processItems, List.map_filterMap]

theorem filterMap_length_all_some {α β : Type} (f : α → Option β) (l : List α)
    (h : ∀ a ∈ l, (f a).isSome = true) : (l.filterMap f).length = l.length := by
  induction l with
  | nil => rfl
  | cons a as ih =>
    have ha := h a (by simp)
    cases hf : f a with
    | none => rw [hf] at ha; simp at ha
    | some b =>
      simp only [List.filterMap_cons, hf, List.length_cons]
      rw [ih (fun x hx => h x (by simp [hx]))]

theorem flatten_filterMap_getD (lookup : String → Option (List String))
    (ids : List String) :
    ((ids.filterMap (fun a => some ((lookup a).getD []))).flatten)
      = (ids.filterMap lookup).flatten := by
  induction ids with
  | nil => rfl
  | cons a rest ih =>
    cases h : lookup a with
    | none => simp [List.filterMap_cons, h, ih]
    | some gs => simp [List.filterMap_cons, h, ih]

theorem genreSet_patch (lookup : String → Option (List String)) (ids : List String) :
    genreSet (fun a => some ((lookup a).getD [])) ids = genreSet lookup ids := by
  unfold genreSet
  rw [flatten_filterMap_getD]

theorem mkRawTrack_patch (lookup : String → Option (List String)) (t : Track) :
    mkRawTrack (fun a => some ((lookup a).getD [])) t = mkRawTrack lookup t := by
  simp [mkRawTrack, genreSet_patch]

theorem mem_insertUniq (acc : List String) (x g : String) :
    g ∈ insertUniq acc x ↔ g ∈ acc ∨ g = x := by
  by_cases h : x ∈ acc
  · simp only [insertUniq, if_pos h]
    constructor
    · exact Or.inl
    · rintro (hg | rfl)
      · exact hg
      · exact h
  · simp [insertUniq, if_neg h]

theorem mem_pySetList (l : List String) (g : String) : g ∈ pySetList l ↔ g ∈ l := by
  suffices h : ∀ acc, g ∈ l.foldl insertUniq acc ↔ g ∈ acc ∨ g ∈ l by
    simpa [pySetList] using h []
  induction l with
  | nil => intro acc; simp
  | cons x xs ih =>
    intro acc
    simp only [List.foldl_cons, ih, mem_insertUniq, List.mem_cons]
    tauto

theorem mem_genreSet (lookup : String → Option (List String)) (t : Track)
    (g : String) :
    g ∈ (mkRawTrack lookup t).track_genres ↔
      ∃ a ∈ t.artists, ∃ gs, lookup a.id = some gs ∧ g ∈ gs := by
  simp only [mkRawTrack, genreSet, mem_pySetList, List.mem_flatten,
    List.mem_filterMap, List.mem_map]
  constructor
  · rintro ⟨gs, ⟨aid, ⟨a, ha, rfl⟩, hl⟩, hg⟩
    exact ⟨a, ha, gs, hl, hg⟩
  · rintro ⟨a, ha, gs, hl, hg⟩
    exact ⟨gs, ⟨a.id, ⟨a, ha, rfl⟩, hl⟩, hg⟩

theorem crawlPages_spec (lookup : String → Option (List String)) :
    ∀ (rest : List Page) (p : Page), cursorChain p rest →
      crawlPages lookup p rest
        = (((p :: rest).map (fun q => processItems lookup q.items)).flatten,
           rest.length) := by
  intro rest
  induction rest with
  | nil =>
    intro p hc
    have h : p.next = false := hc
    simp [crawlPages, h]
  | cons q qs ih =>
    intro p hc
    obtain ⟨h1, h2⟩ := hc
    simp [crawlPages, h1, ih q h2]

/-! ### Claim theorems: Extractor -/

/-- Claim C9: for every page item whose track payload is absent/null the
Extractor omits it without error and emits one RawTrack per retained item;
a page [item with null track, item with validTrack] yields exactly the one
record for validTrack. -/
theorem extractor_skips_null_tracks
    (lookup : String → Option (List String)) (meta : PlaylistMeta) (t : Track)
    (items : List Item) :
    processItems lookup items = (items.filterMap Item.track).map (mkRawTrack lookup)
    ∧ (processItems lookup items).length = (items.filterMap Item.track).length
    ∧ (extract_playlist_tracks
        { meta := meta, firstPage := { items := [⟨none⟩, ⟨some t⟩], next := false },
          restPages := [], artist := lookup }).1 = [mkRawTrack lookup t] := by
  refine ⟨processItems_eq lookup items, ?_, rfl⟩
  rw [processItems_eq, List.length_map]

/-- Claim C4: a failed per-artist genre lookup does not abort extraction and
is not propagated: the run with failures equals the run in which every
failing artist instead succeeds with an empty genre list (so the failing
artist contributes the empty genre set and all other tracks are unaffected),
each emitted track's genre set is the union of the genres of the artists
whose lookups succeeded, and the number of emitted records does not depend
on lookup failures. -/
theorem artist_lookup_failure_recovered
    (lookup : String → Option (List String)) (items : List Item) (t : Track) :
    processItems (fun a => some ((lookup a).getD [])) items
      = processItems lookup items
    ∧ (∀ g, g ∈ (mkRawTrack lookup t).track_genres ↔
        ∃ a ∈ t.artists, ∃ gs, lookup a.id = some gs ∧ g ∈ gs)
    ∧ (processItems lookup items).length = (items.filterMap Item.track).length := by
  refine ⟨?_, fun g => mem_genreSet lookup t g, ?_⟩
  · have hf : mkRawTrack (fun a => some ((lookup a).getD [])) = mkRawTrack lookup :=
      funext (mkRawTrack_patch lookup)
    rw [processItems, processItems, hf]
  · rw [processItems_eq, List.length_map]

/-- Claim C7: when only the last page carries a null continuation cursor,
the Extractor crawls every page, returning the retained records of all pages
in arrival order (whose count is the sum of page item counts when every
item carries a track payload), and invokes the next-page fetch once per
page after the first. -/
theorem extractor_pagination_complete (sp : SpClient)
    (hc : cursorChain sp.firstPage sp.restPages) :
    (extract_playlist_tracks sp).1
      = ((sp.firstPage :: sp.restPages).map
          (fun p => processItems sp.artist p.items)).flatten
    ∧ ((∀ p ∈ sp.firstPage :: sp.restPages, ∀ it ∈ p.items, it.track.isSome = true) →
        ((extract_playlist_tracks sp).1).length
          = ((sp.firstPage :: sp.restPages).map (fun p => p.items.length)).sum)
    ∧ extractNextCalls sp = sp.restPages.length := by
  have h := crawlPages_spec sp.artist sp.restPages sp.firstPage hc
  refine ⟨?_, ?_, ?_⟩
  · rw [extract_playlist_tracks, h]
  · intro hall
    rw [extract_playlist_tracks, h]
    simp only [List.length_flatten, List.map_map]
    apply congrArg
    apply List.map_congr_left
    intro p hp
    simp only [Function.comp]
    rw [processItems_eq, List.length_map,
      filterMap_length_all_some Item.track p.items (hall p hp)]
  · rw [extractNextCalls, h]

/-! ### Claim C8: rate-limit delay between genre lookups -/

theorem genreLoopTrace_sleep_after_success (lookup : String → Option (List String)) :
    ∀ (aids : List String) (pre rest : List Ev) (a : String),
      genreLoopTrace lookup aids = pre ++ Ev.call a :: rest →
      (lookup a).isSome = true →
      ∃ rest2, rest = Ev.sleep 100 :: rest2 := by
  intro aids
  induction aids with
  | nil =>
    intro pre rest a h _
    cases pre <;> simp [genreLoopTrace] at h
  | cons x xs ih =>
    intro pre rest a h ha
    cases hl : lookup x with
    | some gs =>
      have hT : genreLoopTrace lookup (x :: xs)
          = Ev.call x :: Ev.sleep 100 :: genreLoopTrace lookup xs := by
        simp [genreLoopTrace, hl]
      rw [hT] at h
      cases pre with
      | nil =>
        simp only [List.nil_append] at h
        exact ⟨genreLoopTrace lookup xs, (List.cons.injEq _ _ _ _ ▸ h).2.symm⟩
      | cons e preA =>
        simp only [List.cons_append, List.cons.injEq] at h
        obtain ⟨h1, h2⟩ := h
        cases preA with
        | nil => simp at h2
        | cons f preB =>
          simp only [List.cons_append, List.cons.injEq] at h2
          exact ih preB rest a h2.2 ha
    | none =>
      have hT : genreLoopTrace lookup (x :: xs)
          = Ev.call x :: genreLoopTrace lookup xs := by
        simp [genreLoopTrace, hl]
      rw [hT] at h
      cases pre with
      | nil =>
        simp only [List.nil_append, List.cons.injEq, Ev.call.injEq] at h
        rw [← h.1] at ha
        rw [hl] at ha
        simp at ha
      | cons e preA =>
        simp only [List.cons_append, List.cons.injEq] at h
        exact ih preA rest a h.2 ha

/-- Claim C8 (amended): the Extractor issues the per-artist genre lookups
strictly one at a time, and a ≥100ms delay separates any two consecutive
lookup calls of an extraction whenever the earlier of the two succeeded —
whatever the outcomes of the other lookups in the run.  The time.sleep(0.1)
sits inside the try block after the sp.artist call, so it runs exactly on
success, and a failed lookup is followed by the next call with no enforced
delay (the counterexample).  Formally: however the extraction trace splits
into an earlier call on artist a and a later call with only non-call events
between them, if the lookup of a succeeded the events between the two calls
carry at least 100ms of sleep. -/
theorem genre_calls_separated_when_lookups_succeed (sp : SpClient)
    (pre mid post : List Ev) (a b : String)
    (hsplit : extractCallTrace sp = pre ++ Ev.call a :: (mid ++ Ev.call b :: post))
    (hmid : ∀ e ∈ mid, e.isCall = false)
    (ha : (sp.artist a).isSome = true) :
    100 ≤ sleepTime mid := by
  obtain ⟨rest2, hr⟩ := genreLoopTrace_sleep_after_success sp.artist
    (crawlArtistSeq sp.firstPage sp.restPages) pre (mid ++ Ev.call b :: post) a
    hsplit ha
  cases mid with
  | nil => simp at hr
  | cons m midA =>
    simp only [List.cons_append, List.cons.injEq] at hr
    obtain ⟨hm, _⟩ := hr
    subst hm
    have hs : sleepTime (Ev.sleep 100 :: midA) = 100 + sleepTime midA := by
      simp [sleepTime, Ev.sleepMs]
    rw [hs]
    exact Nat.le_add_right 100 _

/-! ### Loader lemmas -/

theorem keyMatches_self (r : LoadRow) : keyMatches (rowKey r) r = true := by
  simp [keyMatches]

theorem keyMatches_true_iff (k : String × String) (p : LoadRow) :
    keyMatches k p = true ↔ rowKey p = k := by
  simp [keyMatches]

theorem rowKey_stageRow (r : LoadRow) : rowKey (stageRow r) = rowKey r := rfl

theorem filter_replace_eq (r : LoadRow) :
    ∀ (perm : List LoadRow), keysUnique perm →
      perm.any (keyMatches (rowKey r)) = true →
      (perm.map (fun p => if keyMatches (rowKey r) p then r else p)).filter
        (keyMatches (rowKey r)) = [r] := by
  intro perm
  induction perm with
  | nil => intro _ hany; simp at hany
  | cons p ps ih =>
    intro hU hany
    have hU2 := hU
    rw [keysUnique, List.map_cons, List.nodup_cons] at hU2
    have hnotmem : rowKey p ∉ ps.map rowKey := hU2.1
    have hU' : keysUnique ps := hU2.2
    by_cases hp : keyMatches (rowKey r) p = true
    · have hkp : rowKey p = rowKey r := (keyMatches_true_iff _ _).mp hp
      have hps : ∀ q ∈ ps, keyMatches (rowKey r) q = false := by
        intro q hq
        rw [Bool.eq_false_iff]
        intro hqt
        have h1 : rowKey q = rowKey r := (keyMatches_true_iff _ _).mp hqt
        exact hnotmem (List.mem_map.mpr ⟨q, hq, by rw [h1, hkp]⟩)
      rw [List.map_cons, if_pos hp, List.filter_cons, if_pos (keyMatches_self r)]
      have hnil : (ps.map (fun q => if keyMatches (rowKey r) q then r else q)).filter
          (keyMatches (rowKey r)) = [] := by
        rw [List.filter_eq_nil_iff]
        intro x hx
        obtain ⟨q, hq, rfl⟩ := List.mem_map.mp hx
        have hq0 := hps q hq
        rw [if_neg (by simp [hq0])]
        simp [hq0]
      rw [hnil]
    · have hp0 : keyMatches (rowKey r) p = false := Bool.eq_false_iff.mpr hp
      have hany' : ps.any (keyMatches (rowKey r)) = true := by
        rw [List.any_cons] at hany
        simpa [hp0] using hany
      rw [List.map_cons, if_neg hp, List.filter_cons, if_neg (by simp [hp0])]
      exact ih hU' hany'

theorem upsertOne_filter_key (perm : List LoadRow) (r : LoadRow)
    (hU : keysUnique perm) :
    (upsertOne perm r).filter (keyMatches (rowKey r)) = [r] := by
  by_cases hany : perm.any (keyMatches (rowKey r)) = true
  · rw [upsertOne, if_pos hany]
    exact filter_replace_eq r perm hU hany
  · rw [upsertOne, if_neg hany, List.filter_append]
    have h1 : perm.filter (keyMatches (rowKey r)) = [] := by
      rw [List.filter_eq_nil_iff]
      exact List.any_eq_false.mp (Bool.eq_false_iff.mpr hany)
    rw [h1, List.nil_append]
    simp [List.filter_cons, keyMatches_self]

theorem upsertOne_keysUnique (perm : List LoadRow) (r : LoadRow)
    (hU : keysUnique perm) : keysUnique (upsertOne perm r) := by
  by_cases hany : perm.any (keyMatches (rowKey r)) = true
  · rw [upsertOne, if_pos hany, keysUnique]
    have hmap : (perm.map (fun p => if keyMatches (rowKey r) p then r else p)).map rowKey
        = perm.map rowKey := by
      rw [List.map_map]
      apply List.map_congr_left
      intro p _
      by_cases hp : keyMatches (rowKey r) p = true
      · have he : rowKey p = rowKey r := (keyMatches_true_iff _ _).mp hp
        simp [Function.comp, hp, he]
      · simp [Function.comp, Bool.eq_false_iff.mpr hp]
    rw [hmap]
    exact hU
  · rw [upsertOne, if_neg hany, keysUnique, List.map_append, List.nodup_append]
    refine ⟨hU, List.nodup_singleton _, ?_⟩
    intro k hk1 hk2
    obtain ⟨p, hp, rfl⟩ := List.mem_map.mp hk1
    have hkr : rowKey p = rowKey r := by simpa using hk2
    have hall := List.any_eq_false.mp (Bool.eq_false_iff.mpr hany)
    exact (hall p hp) ((keyMatches_true_iff _ _).mpr hkr)

theorem rowKey_mem_upsertOne (perm : List LoadRow) (r : LoadRow) :
    rowKey r ∈ (upsertOne perm r).map rowKey := by
  by_cases hany : perm.any (keyMatches (rowKey r)) = true
  · rw [upsertOne, if_pos hany]
    obtain ⟨p, hp, hkm⟩ := List.any_eq_true.mp hany
    have : (if keyMatches (rowKey r) p then r else p) ∈
        perm.map (fun q => if keyMatches (rowKey r) q then r else q) :=
      List.mem_map_of_mem _ hp
    rw [if_pos hkm] at this
    exact List.mem_map_of_mem rowKey this
  · rw [upsertOne, if_neg hany, List.map_append]
    simp

theorem upsertOne_length_of_mem (perm : List LoadRow) (r : LoadRow)
    (h : rowKey r ∈ perm.map rowKey) : (upsertOne perm r).length = perm.length := by
  have hany : perm.any (keyMatches (rowKey r)) = true := by
    rw [List.any_eq_true]
    obtain ⟨p, hp, he⟩ := List.mem_map.mp h
    exact ⟨p, hp, (keyMatches_true_iff _ _).mpr he⟩
  rw [upsertOne, if_pos hany, List.length_map]

theorem load_ok_perm (db : DBState) (r : LoadRow) (t : String) :
    (load_to_postgreSQL db [r] t Fault.ok).1.perm = upsertOne db.perm (stageRow r) := rfl

theorem load_never_raises (db : DBState) (df : List LoadRow) (temp : String)
    (fault : Fault) :
    (load_to_postgreSQL db df temp fault).2 ≠ LoadOutcome.raised := by
  rw [load_to_postgreSQL]
  by_cases h : df.isEmpty = true <;> cases fault <;> simp [h]

/-! ### Claim theorems: Loader -/

/-- Claim C1 (counterexample): with a one-row frame, an empty sink and a
failure injected in the upsert step, a staging table remains in the sink
after the invocation — the DROP sits after the upsert inside the same
rolled-back transaction, so the claimed unconditional staging-table cleanup
does not hold. -/
theorem loader_staging_left_behind_on_failure :
    (load_to_postgreSQL dbEmpty [row50] "temp_playlist_tracks_0a" Fault.atUpsert).1.temps
      ≠ [] := by decide

/-- Claim C1 (amended): for every non-empty input frame, the upsert runs in
a single transaction whose rollback on a mid-batch failure leaves the
permanent table exactly in its pre-load state; but the staging table is
dropped only when the upsert succeeds — the DROP is issued after the upsert
inside that same transaction, so on failure the staging table (committed
separately by df.to_sql) is left behind. -/
theorem loader_atomic_but_staging_leftover (db : DBState) (df : List LoadRow)
    (temp : String) (hne : df ≠ []) :
    (load_to_postgreSQL db df temp Fault.atUpsert).1.perm = db.perm
    ∧ (temp, df.map stageRow) ∈ (load_to_postgreSQL db df temp Fault.atUpsert).1.temps
    ∧ ∀ tb ∈ (load_to_postgreSQL db df temp Fault.ok).1.temps, tb.1 ≠ temp := by
  have hni : df.isEmpty = false := by
    cases df with
    | nil => exact absurd rfl hne
    | cons a l => rfl
  refine ⟨?_, ?_, ?_⟩
  · simp [load_to_postgreSQL, hni]
  · simp [load_to_postgreSQL, hni]
  · intro tb htb
    simp only [load_to_postgreSQL, hni, Bool.false_eq_true, if_false,
      List.mem_filter] at htb
    exact bne_iff_ne.mp htb.2

/-- Claim C1 witness: the amended behaviour at a concrete one-row load. -/
theorem loader_atomic_but_staging_leftover_witness :
    ([row50] ≠ ([] : List LoadRow))
    ∧ ((load_to_postgreSQL dbEmpty [row50] "tempA" Fault.atUpsert).1.perm = dbEmpty.perm
    ∧ ("tempA", [row50].map stageRow) ∈
        (load_to_postgreSQL dbEmpty [row50] "tempA" Fault.atUpsert).1.temps
    ∧ ∀ tb ∈ (load_to_postgreSQL dbEmpty [row50] "tempA" Fault.ok).1.temps,
        tb.1 ≠ "tempA") :=
  ⟨by decide, loader_atomic_but_staging_leftover dbEmpty [row50] "tempA" (by decide)⟩

/-- Claim C2: loading two rows with the same (playlist_id, track_id) in two
successive invocations, against any sink state satisfying the unique-key
constraint, leaves exactly one permanent row for that key — the staged image
of the second load, every mutable column carrying the second load's value —
and the second load does not grow the row count. -/
theorem loader_upsert_last_write_wins (db : DBState) (r1 r2 : LoadRow)
    (t1 t2 : String) (hU : keysUnique db.perm) (hk : rowKey r1 = rowKey r2) :
    ((load_to_postgreSQL (load_to_postgreSQL db [r1] t1 Fault.ok).1 [r2] t2
        Fault.ok).1.perm).filter (keyMatches (rowKey r2)) = [stageRow r2]
    ∧ ((load_to_postgreSQL (load_to_postgreSQL db [r1] t1 Fault.ok).1 [r2] t2
        Fault.ok).1.perm).length
      = ((load_to_postgreSQL db [r1] t1 Fault.ok).1.perm).length := by
  rw [load_ok_perm, load_ok_perm]
  constructor
  · have h := upsertOne_filter_key (upsertOne db.perm (stageRow r1)) (stageRow r2)
      (upsertOne_keysUnique _ _ hU)
    rw [rowKey_stageRow] at h
    exact h
  · apply upsertOne_length_of_mem
    rw [rowKey_stageRow, ← hk, ← rowKey_stageRow r1]
    exact rowKey_mem_upsertOne db.perm (stageRow r1)

/-- Claim C2 witness: popularity 50 then 90 for the same key on an empty
sink — one row remains, carrying the second load's values. -/
theorem loader_upsert_last_write_wins_witness :
    keysUnique dbEmpty.perm
    ∧ rowKey row50 = rowKey row90
    ∧ (((load_to_postgreSQL (load_to_postgreSQL dbEmpty [row50] "t1" Fault.ok).1 [row90] "t2"
        Fault.ok).1.perm).filter (keyMatches (rowKey row90)) = [stageRow row90]
    ∧ ((load_to_postgreSQL (load_to_postgreSQL dbEmpty [row50] "t1" Fault.ok).1 [row90] "t2"
        Fault.ok).1.perm).length
      = ((load_to_postgreSQL dbEmpty [row50] "t1" Fault.ok).1.perm).length) :=
  ⟨List.nodup_nil, rfl,
   loader_upsert_last_write_wins dbEmpty row50 row90 "t1" "t2" List.nodup_nil rfl⟩

/-- Claim C3 (counterexample): a sink write failure in the upsert step does
not surface any typed failure — the invocation returns normally with the
error merely logged. -/
theorem loader_failure_returns_normally :
    (load_to_postgreSQL dbEmpty [row50] "tempA" Fault.atUpsert).2 = LoadOutcome.errorLogged
    ∧ (load_to_postgreSQL dbEmpty [row50] "tempA" Fault.atUpsert).2 ≠ LoadOutcome.raised := by
  decide

/-- Claim C3 (amended): when the sink write (staging or upsert) fails for a
non-empty input, load_to_postgreSQL catches the exception, logs it, and
returns normally with outcome errorLogged, the permanent table unchanged;
no invocation ever surfaces a raised failure to its caller. -/
theorem loader_swallows_sink_failures (db : DBState) (df : List LoadRow)
    (temp : String) (fault : Fault) (hne : df ≠ []) (hf : fault ≠ Fault.ok) :
    (load_to_postgreSQL db df temp fault).2 = LoadOutcome.errorLogged
    ∧ (load_to_postgreSQL db df temp fault).1.perm = db.perm
    ∧ ∀ (db2 : DBState) (df2 : List LoadRow) (t2 : String) (f2 : Fault),
        (load_to_postgreSQL db2 df2 t2 f2).2 ≠ LoadOutcome.raised := by
  have hni : df.isEmpty = false := by
    cases df with
    | nil => exact absurd rfl hne
    | cons a l => rfl
  refine ⟨?_, ?_, fun db2 df2 t2 f2 => load_never_raises db2 df2 t2 f2⟩
  · cases fault with
    | ok => exact absurd rfl hf
    | atStaging => simp [load_to_postgreSQL, hni]
    | atUpsert => simp [load_to_postgreSQL, hni]
  · cases fault with
    | ok => exact absurd rfl hf
    | atStaging => simp [load_to_postgreSQL, hni]
    | atUpsert => simp [load_to_postgreSQL, hni]

/-- Claim C3 witness: the amended behaviour at a concrete failed load. -/
theorem loader_swallows_sink_failures_witness :
    ([row50] ≠ ([] : List LoadRow))
    ∧ Fault.atUpsert ≠ Fault.ok
    ∧ ((load_to_postgreSQL dbEmpty [row50] "tempB" Fault.atUpsert).2 = LoadOutcome.errorLogged
    ∧ (load_to_postgreSQL dbEmpty [row50] "tempB" Fault.atUpsert).1.perm = dbEmpty.perm
    ∧ ∀ (db2 : DBState) (df2 : List LoadRow) (t2 : String) (f2 : Fault),
        (load_to_postgreSQL db2 df2 t2 f2).2 ≠ LoadOutcome.raised) :=
  ⟨by decide, by decide,
   loader_swallows_sink_failures dbEmpty [row50] "tempB" Fault.atUpsert
     (by decide) (by decide)⟩

/-- Claim C7 witness: 3+1 items across two pages yield 4 records and exactly
one next-page fetch. -/
theorem extractor_pagination_complete_witness :
    cursorChain spTwoPages.firstPage spTwoPages.restPages
    ∧ ((extract_playlist_tracks spTwoPages).1).length = 4
    ∧ extractNextCalls spTwoPages = 1 := by
  have h := extractor_pagination_complete spTwoPages ⟨rfl, rfl⟩
  refine ⟨⟨rfl, rfl⟩, ?_, h.2.2⟩
  rw [h.2.1 (by decide)]
  decide

/-- Claim C8 (counterexample): when the first artist's lookup fails, the
second lookup call follows it with no intervening delay — the extraction's
consecutive lookup calls are not all ≥100ms apart, because time.sleep(0.1)
sits after the sp.artist call inside the try block and is skipped when the
call raises. -/
theorem genre_calls_not_separated_on_failure :
    callsSeparated (extractCallTrace spFailFirst) = false := by decide

/-- Claim C8 witness: the amended separation guarantee in a mixed run — the
lookup of a1 fails while those of a2 and a3 succeed, and the consecutive
pair (a2, a3) is still separated by 100ms of sleep. -/
theorem genre_calls_separated_witness :
    extractCallTrace spMixed
      = [Ev.call "a1"] ++ Ev.call "a2" :: ([Ev.sleep 100] ++ Ev.call "a3" :: [Ev.sleep 100])
    ∧ (∀ e ∈ [Ev.sleep 100], e.isCall = false)
    ∧ (spMixed.artist "a2").isSome = true
    ∧ 100 ≤ sleepTime [Ev.sleep 100] :=
  ⟨by decide, by decide, by decide,
   genre_calls_separated_when_lookups_succeed spMixed [Ev.call "a1"] [Ev.sleep 100]
     [Ev.sleep 100] "a2" "a3" (by decide) (by decide) (by decide)⟩

/-! ### Normalizer lemmas -/

theorem to_datetime_parseDateString (s : String) :
    to_datetime (parseDateString s) = parseDateString s := by
  unfold parseDateString
  split <;> first | rfl | (split <;> rfl)

theorem to_datetime_idem (c : DateCell) :
    to_datetime (to_datetime c) = to_datetime c := by
  cases c with
  | text s => exact to_datetime_parseDateString s
  | dt y m d => rfl
  | null => rfl

theorem isList_exists {v : PyVal} (h : v.isList = true) :
    ∃ l, v = PyVal.listv l := by
  cases v with
  | listv l => exact ⟨l, rfl⟩
  | strv s => simp [PyVal.isList] at h
  | intv n => simp [PyVal.isList] at h
  | nullv => simp [PyVal.isList] at h

theorem transformRow_idem (r : Row) (h1 : r.artist_names.isList = true)
    (h2 : r.track_genres.isList = true) (h3 : r.artist_ids.isList = true) :
    transformRow (transformRow r) = transformRow r := by
  obtain ⟨l1, e1⟩ := isList_exists h1
  obtain ⟨l2, e2⟩ := isList_exists h2
  obtain ⟨l3, e3⟩ := isList_exists h3
  simp [transformRow, e1, e2, e3, safe_parse, to_datetime_idem]

theorem isJsonArray_bracket (x : String) : isJsonArray ("[" ++ x) = true := by
  have h : ("[" ++ x).toList = '[' :: x.toList := by
    show ("[" ++ x).data = '[' :: x.data
    rw [String.data_append]
    rfl
  unfold isJsonArray
  rw [h]
  rfl

/-! ### Claim theorems: Normalizer and staging coercion -/

/-- Claim C5 (counterexample): the string "123" is not a list
representation, so under the claim its parse as a list fails and the cell
should become the empty list; but safe_parse returns the parsed integer
123, which is not a list at all. -/
theorem safe_parse_nonlist_literal :
    safe_parse (PyVal.strv "123") = PyVal.intv 123
    ∧ safe_parse (PyVal.strv "123") ≠ PyVal.listv []
    ∧ (safe_parse (PyVal.strv "123")).isList = false := by decide

/-- Claim C5 (amended): the Normalizer applies safe_parse to each of
artist_names, track_genres, artist_ids; a list cell passes through
unchanged; a null cell becomes the empty list; a string cell is fed to the
Python literal parser — on success the parsed value is returned as-is (the
list itself for a serialized list, but a non-list value for a non-list
literal), on failure the cell becomes the empty list.  The three example
inputs behave as the claim states. -/
theorem normalizer_list_coercion (r : Row) (l : List String) (s : String)
    (v : PyVal) :
    (transformRow r).artist_names = safe_parse r.artist_names
    ∧ (transformRow r).track_genres = safe_parse r.track_genres
    ∧ (transformRow r).artist_ids = safe_parse r.artist_ids
    ∧ safe_parse (PyVal.listv l) = PyVal.listv l
    ∧ safe_parse PyVal.nullv = PyVal.listv []
    ∧ (parsePyLit s = some v → safe_parse (PyVal.strv s) = v)
    ∧ (parsePyLit s = none → safe_parse (PyVal.strv s) = PyVal.listv [])
    ∧ safe_parse (PyVal.listv ["pop", "rock"]) = PyVal.listv ["pop", "rock"]
    ∧ safe_parse (PyVal.strv "[\"pop\",\"rock\"]") = PyVal.listv ["pop", "rock"]
    ∧ safe_parse (PyVal.strv "oops") = PyVal.listv [] := by
  refine ⟨rfl, rfl, rfl, rfl, rfl, ?_, ?_, by decide, by decide, by decide⟩
  · intro h; simp [safe_parse, h]
  · intro h; simp [safe_parse, h]

/-- Claim C5 witness: the string branches of the amended coercion rule at
concrete inputs. -/
theorem normalizer_list_coercion_witness :
    safe_parse (PyVal.strv "[\"jazz\"]") = PyVal.listv ["jazz"]
    ∧ safe_parse (PyVal.strv "nope") = PyVal.listv [] :=
  ⟨(normalizer_list_coercion rowListy ["jazz"] "[\"jazz\"]"
      (PyVal.listv ["jazz"])).2.2.2.2.2.1 (by decide),
   (normalizer_list_coercion rowListy [] "nope"
      PyVal.nullv).2.2.2.2.2.2.1 (by decide)⟩

/-- Claim C6 (counterexample): idempotence fails on a canonical-shaped
input.  One pass over the row whose track_genres cell is "'123'" yields the
canonical-shaped frame x with track_genres "123" (the parsed inner string);
normalize(x) then parses that to the integer 123 while
normalize(normalize(x)) collapses the integer to [], so
normalize(normalize(x)) differs from normalize(x). -/
theorem normalizer_not_idempotent :
    transform_playlist_df (transform_playlist_df (transform_playlist_df [rowQuoted]))
      ≠ transform_playlist_df (transform_playlist_df [rowQuoted]) := by decide

/-- Claim C6 (amended): the Normalizer is idempotent on every frame whose
artist_names, track_genres and artist_ids cells are list-valued — which
covers every canonical frame arising from native-list, serialized-list,
null or unparseable inputs; it is not idempotent on string cells whose
literal parse yields another string or a non-list value. -/
theorem normalizer_idempotent_on_list_fields (df : List Row)
    (h : ∀ r ∈ df, r.artist_names.isList = true ∧ r.track_genres.isList = true
      ∧ r.artist_ids.isList = true) :
    transform_playlist_df (transform_playlist_df df) = transform_playlist_df df := by
  unfold transform_playlist_df
  rw [List.map_map]
  apply List.map_congr_left
  intro r hr
  obtain ⟨h1, h2, h3⟩ := h r hr
  exact transformRow_idem r h1 h2 h3

/-- Claim C6 witness: idempotence at a concrete list-valued row. -/
theorem normalizer_idempotent_witness :
    (∀ r ∈ [rowListy], r.artist_names.isList = true ∧ r.track_genres.isList = true
      ∧ r.artist_ids.isList = true)
    ∧ transform_playlist_df (transform_playlist_df [rowListy])
        = transform_playlist_df [rowListy] :=
  ⟨by decide, normalizer_idempotent_on_list_fields [rowListy] (by decide)⟩

/-- Claim C10 (counterexample): a frame cell holding the string "123" is
staged not as JSON-array text but as the JSON number text "123" — safe_parse
returns the parsed integer, which json.dumps encodes as a number, and the
row is staged rather than rejected. -/
theorem loader_stages_nonarray_text :
    (stageRow rowNonList).track_genres = PyVal.strv "123"
    ∧ isJsonArray (jsonDumps (safe_parse (PyVal.strv "123"))) = false := by decide

/-- Claim C10 (amended): the Loader re-applies the list coercion (safe_parse)
to track_genres, artist_ids and artist_names and JSON-encodes the result
before staging; a native list stages as JSON-array text, a null or
unparseable cell stages as "[]", a string parsing to a list stages as that
list's JSON-array text — but a string parsing to a non-list literal stages
as that value's JSON encoding, which is not array text. -/
theorem loader_restages_list_fields (r : LoadRow) (l : List String) (s : String) :
    (stageRow r).track_genres = PyVal.strv (jsonDumps (safe_parse r.track_genres))
    ∧ (stageRow r).artist_ids = PyVal.strv (jsonDumps (safe_parse r.artist_ids))
    ∧ (stageRow r).artist_names = PyVal.strv (jsonDumps (safe_parse r.artist_names))
    ∧ isJsonArray (jsonDumps (PyVal.listv l)) = true
    ∧ jsonDumps (safe_parse PyVal.nullv) = "[]"
    ∧ (parsePyLit s = none → jsonDumps (safe_parse (PyVal.strv s)) = "[]")
    ∧ (parsePyLit s = some (PyVal.listv l) →
        jsonDumps (safe_parse (PyVal.strv s)) = jsonDumps (PyVal.listv l)) := by
  refine ⟨rfl, rfl, rfl, ?_, by decide, ?_, ?_⟩
  · show isJsonArray ("[" ++ String.intercalate ", " (l.map jsonStr) ++ "]") = true
    rw [String.append_assoc]
    exact isJsonArray_bracket _
  · intro h
    show jsonDumps ((parsePyLit s).getD (PyVal.listv [])) = "[]"
    rw [h]
    rfl
  · intro h
    show jsonDumps ((parsePyLit s).getD (PyVal.listv [])) = jsonDumps (PyVal.listv l)
    rw [h, Option.getD_some]

/-- Claim C10 witness: the string branches of the amended staging rule at
concrete inputs. -/
theorem loader_restages_list_fields_witness :
    jsonDumps (safe_parse (PyVal.strv "nope2")) = "[]"
    ∧ jsonDumps (safe_parse (PyVal.strv "[\"pop\"]")) = jsonDumps (PyVal.listv ["pop"]) :=
  ⟨(loader_restages_list_fields row50 ["pop"] "nope2").2.2.2.2.2.1 (by decide),
   (loader_restages_list_fields row50 ["pop"] "[\"pop\"]").2.2.2.2.2.2 (by decide)⟩

end Spotify
